import Mathlib

/-!
Verification of the ADAS-Carla session-manager scripts.

The Python sources are shallowly embedded: simulator handles become small
structures, the client object becomes an explicit record that operations
thread through, and every call the client would forward to the external
simulator is recorded as an explicit command value.  Float values are
modelled as rationals: the operations under study (clamping, lookups,
bookkeeping) perform no rounding arithmetic, only comparisons and copies.
-/

namespace Carla

/-- A simulator-managed actor handle: a remote id plus its liveness flag,
as observed through the `is_alive` attribute. -/
structure Actor where
  id : Nat
  is_alive : Bool
deriving DecidableEq

/-- The fourteen weather presets named by `carla.WeatherParameters` that the
client script references. -/
inductive WeatherParameters
  | ClearNoon | CloudyNoon | WetNoon | WetCloudyNoon
  | MidRainyNoon | HardRainNoon | SoftRainNoon
  | ClearSunset | CloudySunset | WetSunset | WetCloudySunset
  | MidRainSunset | HardRainSunset | SoftRainSunset
deriving DecidableEq

/-- A 3-vector as returned by the simulator for locations, velocities and
accelerations. -/
structure Vector3D where
  x : ℚ
  y : ℚ
  z : ℚ
deriving DecidableEq

/-- A rotation as returned by `get_transform`. -/
structure Rotation where
  pitch : ℚ
  yaw : ℚ
  roll : ℚ
deriving DecidableEq

/-- A transform: location plus rotation. -/
structure Transform where
  location : Vector3D
  rotation : Rotation
deriving DecidableEq

end Carla

/-- A command the client forwards to the external simulator.  Control and
autopilot commands target the current vehicle; destroy commands carry the
actor id they release. -/
inductive SimCommand
  | applyControl (throttle steer brake : ℚ)
  | setAutopilot (enabled : Bool)
  | destroySensor (name : String) (id : Nat)
  | destroyVehicle (id : Nat)
deriving DecidableEq

/-- The state of `CarlaClient`: connection parameters fixed in `__init__`,
the session and world references, the optional vehicle handle, and the
name-to-handle mapping of spawned sensors (a Python dict in insertion
order, embedded as an association list). -/
structure CarlaClient where
  host : String
  port : Nat
  timeout : ℚ
  connected : Bool
  worldLoaded : Option String
  vehicle : Option Carla.Actor
  sensors : List (String × Carla.Actor)
deriving DecidableEq

/-- `np.clip(x, lo, hi)`, which numpy documents as
`minimum(hi, maximum(x, lo))`. -/
def clip (x lo hi : ℚ) : ℚ :=
  min (max x lo) hi

/-- `CarlaClient.manual_control`: when a vehicle is present, build a
`VehicleControl` with the three clamped fields and forward it via
`apply_control`; otherwise do nothing.  The returned list holds the
commands sent to the simulator. -/
def manual_control (c : CarlaClient) (throttle steer brake : ℚ) :
    CarlaClient × List SimCommand :=
  match c.vehicle with
  | none => (c, [])
  | some _ =>
      (c, [SimCommand.applyControl (clip throttle 0 1) (clip steer (-1) 1)
            (clip brake 0 1)])

/-- `CarlaClient.enable_autopilot`: forward `set_autopilot(enabled)` when a
vehicle is present, otherwise do nothing. -/
def enable_autopilot (c : CarlaClient) (enabled : Bool) :
    CarlaClient × List SimCommand :=
  match c.vehicle with
  | none => (c, [])
  | some _ => (c, [SimCommand.setAutopilot enabled])

theorem le_clip (x lo hi : ℚ) (h : lo ≤ hi) : lo ≤ clip x lo hi :=
  le_min (le_max_right x lo) h

theorem clip_le (x lo hi : ℚ) : clip x lo hi ≤ hi :=
  min_le_right _ _

theorem clip_of_mem (x lo hi : ℚ) (hlo : lo ≤ x) (hhi : x ≤ hi) :
    clip x lo hi = x := by
  unfold clip
  rw [max_eq_left hlo, min_eq_left hhi]

/-- Claim C1: for every rational throttle, steer and brake input, when a
vehicle is present `manual_control` forwards exactly one control command
whose throttle and brake lie in the interval from 0 to 1 and whose steer
lies in the interval from -1 to 1. -/
theorem manual_control_forwards_bounded (c : CarlaClient)
    (throttle steer brake : ℚ) (v : Carla.Actor)
    (hv : c.vehicle = some v) :
    ∃ t s b : ℚ,
      (manual_control c throttle steer brake).2 = [SimCommand.applyControl t s b] ∧
      0 ≤ t ∧ t ≤ 1 ∧ (-1) ≤ s ∧ s ≤ 1 ∧ 0 ≤ b ∧ b ≤ 1 := by
  refine ⟨clip throttle 0 1, clip steer (-1) 1, clip brake 0 1, ?_, ?_, ?_, ?_, ?_, ?_, ?_⟩
  · simp [manual_control, hv]
  · exact le_clip _ _ _ (by norm_num)
  · exact clip_le _ _ _
  · exact le_clip _ _ _ (by norm_num)
  · exact clip_le _ _ _
  · exact le_clip _ _ _ (by norm_num)
  · exact clip_le _ _ _

/-- Witness for C1 at a concrete client and concrete out-of-range inputs. -/
theorem manual_control_forwards_bounded_witness :
    ∃ t s b : ℚ,
      (manual_control
        ⟨"localhost", 2000, 10, true, some "Town01", some ⟨1, true⟩,
          [("camera", ⟨2, true⟩)]⟩ 3 (-7) (1/2)).2 =
        [SimCommand.applyControl t s b] ∧
      0 ≤ t ∧ t ≤ 1 ∧ (-1) ≤ s ∧ s ≤ 1 ∧ 0 ≤ b ∧ b ≤ 1 :=
  manual_control_forwards_bounded _ 3 (-7) (1/2) ⟨1, true⟩ rfl

/-- Claim C2: the clamping used by `manual_control` returns any value that
is already in range unchanged, and clamping a clamped value gives the
clamped value back. -/
theorem clip_idempotent_on_range (throttle steer brake : ℚ)
    (ht0 : 0 ≤ throttle) (ht1 : throttle ≤ 1)
    (hs0 : (-1) ≤ steer) (hs1 : steer ≤ 1)
    (hb0 : 0 ≤ brake) (hb1 : brake ≤ 1) :
    clip throttle 0 1 = throttle ∧ clip steer (-1) 1 = steer ∧
    clip brake 0 1 = brake ∧
    clip (clip throttle 0 1) 0 1 = clip throttle 0 1 ∧
    clip (clip steer (-1) 1) (-1) 1 = clip steer (-1) 1 ∧
    clip (clip brake 0 1) 0 1 = clip brake 0 1 := by
  refine ⟨clip_of_mem _ _ _ ht0 ht1, clip_of_mem _ _ _ hs0 hs1,
    clip_of_mem _ _ _ hb0 hb1, ?_, ?_, ?_⟩ <;>
    exact clip_of_mem _ _ _ (le_clip _ _ _ (by norm_num)) (clip_le _ _ _)

/-- Witness for C2 at concrete in-range values. -/
theorem clip_idempotent_on_range_witness :
    clip (1/2) 0 1 = 1/2 ∧ clip (-1) (-1) 1 = -1 ∧ clip 0 0 1 = 0 ∧
    clip (clip (1/2) 0 1) 0 1 = clip (1/2) 0 1 ∧
    clip (clip (-1) (-1) 1) (-1) 1 = clip (-1) (-1) 1 ∧
    clip (clip 0 0 1) 0 1 = clip 0 0 1 :=
  clip_idempotent_on_range (1/2) (-1) 0 (by norm_num) (by norm_num)
    (by norm_num) (by norm_num) (by norm_num) (by norm_num)

/-- The fixed preset table built inside `CarlaClient.set_weather`. -/
def weather_presets : List (String × Carla.WeatherParameters) :=
  [("ClearNoon", Carla.WeatherParameters.ClearNoon),
   ("CloudyNoon", Carla.WeatherParameters.CloudyNoon),
   ("WetNoon", Carla.WeatherParameters.WetNoon),
   ("WetCloudyNoon", Carla.WeatherParameters.WetCloudyNoon),
   ("MidRainyNoon", Carla.WeatherParameters.MidRainyNoon),
   ("HardRainNoon", Carla.WeatherParameters.HardRainNoon),
   ("SoftRainNoon", Carla.WeatherParameters.SoftRainNoon),
   ("ClearSunset", Carla.WeatherParameters.ClearSunset),
   ("CloudySunset", Carla.WeatherParameters.CloudySunset),
   ("WetSunset", Carla.WeatherParameters.WetSunset),
   ("WetCloudySunset", Carla.WeatherParameters.WetCloudySunset),
   ("MidRainSunset", Carla.WeatherParameters.MidRainSunset),
   ("HardRainSunset", Carla.WeatherParameters.HardRainSunset),
   ("SoftRainSunset", Carla.WeatherParameters.SoftRainSunset)]

/-- `CarlaClient.set_weather` selection logic: look the name up in the
preset table; on a miss, log a warning and fall back to `ClearNoon`.  The
result is the preset forwarded to `world.set_weather` together with the
flag recording whether the warning branch was taken. -/
def set_weather (weather_type : String) : Carla.WeatherParameters × Bool :=
  match weather_presets.lookup weather_type with
  | some preset => (preset, false)
  | none => (Carla.WeatherParameters.ClearNoon, true)

/-- Claim C3: weather selection is total.  Every input string selects
either its mapped preset (without warning) or, when absent from the fixed
table, the ClearNoon default with a warning; each of the fourteen table
names selects its own preset and an unknown name falls back. -/
theorem set_weather_total :
    (∀ s : String,
      (weather_presets.lookup s = some (set_weather s).1 ∧
        (set_weather s).2 = false) ∨
      (weather_presets.lookup s = none ∧
        (set_weather s).1 = Carla.WeatherParameters.ClearNoon ∧
        (set_weather s).2 = true)) ∧
    set_weather "ClearNoon" = (Carla.WeatherParameters.ClearNoon, false) ∧
    set_weather "HardRainSunset" = (Carla.WeatherParameters.HardRainSunset, false) ∧
    set_weather "SoftRainNoon" = (Carla.WeatherParameters.SoftRainNoon, false) ∧
    set_weather "Foggy" = (Carla.WeatherParameters.ClearNoon, true) := by
  refine ⟨?_, by decide, by decide, by decide, by decide⟩
  intro s
  cases h : weather_presets.lookup s with
  | none => exact Or.inr ⟨rfl, by simp [set_weather, h], by simp [set_weather, h]⟩
  | some p => exact Or.inl ⟨by simp [set_weather, h], by simp [set_weather, h]⟩

/-- `CarlaClient.cleanup`: iterate over the sensor dict destroying each
live handle, then destroy the vehicle handle if live, then clear the dict
and the vehicle reference.  The returned list records the destroy calls in
program order. -/
def cleanup (c : CarlaClient) : CarlaClient × List SimCommand :=
  (⟨c.host, c.port, c.timeout, c.connected, c.worldLoaded, none, []⟩,
    ((c.sensors.filter (fun p => p.2.is_alive)).map
        (fun p => SimCommand.destroySensor p.1 p.2.id)) ++
      (match c.vehicle with
       | some v => if v.is_alive then [SimCommand.destroyVehicle v.id] else []
       | none => []))

/-- The ids of every actor the client currently tracks: the sensor dict
values followed by the vehicle handle. -/
def trackedIds (c : CarlaClient) : List Nat :=
  c.sensors.map (fun p => p.2.id) ++
    (match c.vehicle with
     | some v => [v.id]
     | none => [])

/-- The actor id a command releases, when it is a destroy command. -/
def commandActorId : SimCommand → Option Nat
  | SimCommand.destroySensor _ i => some i
  | SimCommand.destroyVehicle i => some i
  | _ => none

/-- The two ways the run loop of `main` can end: falling through normally
or a `KeyboardInterrupt`.  Either way the `finally` clause runs. -/
inductive TermPath
  | normal
  | interrupted
deriving DecidableEq

/-- The tail of `main`: whatever way the try block ends, the `finally`
clause invokes `cleanup` on the client. -/
def run_session_tail (_p : TermPath) (c : CarlaClient) :
    CarlaClient × List SimCommand :=
  cleanup c

theorem filterMap_commandActorId_destroySensor
    (l : List (String × Carla.Actor)) :
    (l.map (fun p => SimCommand.destroySensor p.1 p.2.id)).filterMap
        commandActorId =
      l.map (fun p => p.2.id) := by
  induction l with
  | nil => rfl
  | cons a t ih => simp [List.filterMap_cons, commandActorId, ih]

theorem cleanup_destroy_ids_sublist (c : CarlaClient) :
    ((cleanup c).2.filterMap commandActorId).Sublist (trackedIds c) := by
  unfold cleanup trackedIds
  simp only [List.filterMap_append, filterMap_commandActorId_destroySensor]
  apply List.Sublist.append
  · exact (List.filter_sublist _).map _
  · cases hv : c.vehicle with
    | none => simp
    | some v =>
        cases hva : v.is_alive with
        | false => simp [hva]
        | true => simp [hva, commandActorId]

/-- Claim C4: whichever way the run loop of `main` terminates (normally or
by interrupt), the `finally` clause invokes `cleanup`; afterwards, provided
the tracked actor ids are pairwise distinct, each tracked sensor handle and
the vehicle handle is released at most once (the destroyed ids are without
duplicate), the sensor dict is empty and the vehicle reference is cleared. -/
theorem run_session_tail_cleans_up (p : TermPath) (c : CarlaClient)
    (hNd : (trackedIds c).Nodup) :
    run_session_tail p c = cleanup c ∧
    (run_session_tail p c).1.sensors = [] ∧
    (run_session_tail p c).1.vehicle = none ∧
    ((run_session_tail p c).2.filterMap commandActorId).Nodup := by
  refine ⟨rfl, rfl, rfl, ?_⟩
  exact List.Nodup.sublist (cleanup_destroy_ids_sublist c) hNd

/-- Witness for C4 at a concrete interrupted session holding two live
sensors and a live vehicle with pairwise distinct ids. -/
theorem run_session_tail_cleans_up_witness :
    (trackedIds
        ⟨"localhost", 2000, 10, true, some "Town01", some ⟨1, true⟩,
          [("camera", ⟨2, true⟩), ("imu", ⟨3, false⟩)]⟩).Nodup ∧
    (run_session_tail TermPath.interrupted
        ⟨"localhost", 2000, 10, true, some "Town01", some ⟨1, true⟩,
          [("camera", ⟨2, true⟩), ("imu", ⟨3, false⟩)]⟩ =
      cleanup
        ⟨"localhost", 2000, 10, true, some "Town01", some ⟨1, true⟩,
          [("camera", ⟨2, true⟩), ("imu", ⟨3, false⟩)]⟩ ∧
    (run_session_tail TermPath.interrupted
        ⟨"localhost", 2000, 10, true, some "Town01", some ⟨1, true⟩,
          [("camera", ⟨2, true⟩), ("imu", ⟨3, false⟩)]⟩).1.sensors = [] ∧
    (run_session_tail TermPath.interrupted
        ⟨"localhost", 2000, 10, true, some "Town01", some ⟨1, true⟩,
          [("camera", ⟨2, true⟩), ("imu", ⟨3, false⟩)]⟩).1.vehicle = none ∧
    ((run_session_tail TermPath.interrupted
        ⟨"localhost", 2000, 10, true, some "Town01", some ⟨1, true⟩,
          [("camera", ⟨2, true⟩), ("imu", ⟨3, false⟩)]⟩).2.filterMap
        commandActorId).Nodup) :=
  ⟨by decide,
    run_session_tail_cleans_up TermPath.interrupted
      ⟨"localhost", 2000, 10, true, some "Town01", some ⟨1, true⟩,
        [("camera", ⟨2, true⟩), ("imu", ⟨3, false⟩)]⟩ (by decide)⟩

/-- Claim C7: the destroy commands of `cleanup` split into a block of
sensor destroys followed by a block of vehicle destroys, so no destroy of
the vehicle handle precedes the destruction of any tracked sensor handle. -/
theorem cleanup_sensors_before_vehicle (c : CarlaClient) :
    ∃ ss vs : List SimCommand,
      (cleanup c).2 = ss ++ vs ∧
      (∀ e ∈ ss, ∃ n i, e = SimCommand.destroySensor n i) ∧
      (∀ e ∈ vs, ∃ i, e = SimCommand.destroyVehicle i) := by
  refine ⟨(c.sensors.filter (fun p => p.2.is_alive)).map
      (fun p => SimCommand.destroySensor p.1 p.2.id),
    (match c.vehicle with
     | some v => if v.is_alive then [SimCommand.destroyVehicle v.id] else []
     | none => []), rfl, ?_, ?_⟩
  · intro e he
    rw [List.mem_map] at he
    obtain ⟨q, _, rfl⟩ := he
    exact ⟨q.1, q.2.id, rfl⟩
  · intro e he
    cases hv : c.vehicle with
    | none => rw [hv] at he; simp at he
    | some v =>
        rw [hv] at he
        cases hva : v.is_alive with
        | false => simp [hva] at he
        | true =>
            simp [hva] at he
            exact ⟨v.id, he⟩

/-- The kinematic quantities the simulator reports for a vehicle handle,
as read by `get_transform`, `get_velocity` and `get_acceleration`. -/
structure SimVehicleObservation where
  transform : Carla.Transform
  velocity : Carla.Vector3D
  acceleration : Carla.Vector3D
deriving DecidableEq

/-- `CarlaClient.get_vehicle_state`: the empty dict when no vehicle is
set, otherwise the nested dict of location, rotation, velocity and
acceleration built from the simulator observations. -/
def get_vehicle_state (c : CarlaClient) (obs : SimVehicleObservation) :
    List (String × List (String × ℚ)) :=
  match c.vehicle with
  | none => []
  | some _ =>
      [("location",
        [("x", obs.transform.location.x), ("y", obs.transform.location.y),
         ("z", obs.transform.location.z)]),
       ("rotation",
        [("pitch", obs.transform.rotation.pitch),
         ("yaw", obs.transform.rotation.yaw),
         ("roll", obs.transform.rotation.roll)]),
       ("velocity",
        [("x", obs.velocity.x), ("y", obs.velocity.y), ("z", obs.velocity.z)]),
       ("acceleration",
        [("x", obs.acceleration.x), ("y", obs.acceleration.y),
         ("z", obs.acceleration.z)])]

/-- Claim C5: with no vehicle spawned, `get_vehicle_state` returns the
empty dictionary whatever the simulator would have reported. -/
theorem get_vehicle_state_no_vehicle (c : CarlaClient)
    (obs : SimVehicleObservation) (h : c.vehicle = none) :
    get_vehicle_state c obs = [] := by
  simp [get_vehicle_state, h]

/-- Witness for C5 at a freshly initialized client. -/
theorem get_vehicle_state_no_vehicle_witness :
    get_vehicle_state ⟨"localhost", 2000, 10, false, none, none, []⟩
      ⟨⟨⟨0, 0, 0⟩, ⟨0, 0, 0⟩⟩, ⟨0, 0, 0⟩, ⟨0, 0, 0⟩⟩ = [] :=
  get_vehicle_state_no_vehicle ⟨"localhost", 2000, 10, false, none, none, []⟩
    ⟨⟨⟨0, 0, 0⟩, ⟨0, 0, 0⟩⟩, ⟨0, 0, 0⟩, ⟨0, 0, 0⟩⟩ rfl

/-- Claim C9: with no vehicle spawned, `manual_control` and
`enable_autopilot` forward no command to the simulator and return the
client state unchanged in every field. -/
theorem no_vehicle_noops (c : CarlaClient) (throttle steer brake : ℚ)
    (enabled : Bool) (h : c.vehicle = none) :
    manual_control c throttle steer brake = (c, []) ∧
    enable_autopilot c enabled = (c, []) := by
  constructor
  · simp [manual_control, h]
  · simp [enable_autopilot, h]

/-- Witness for C9 at a connected client that never spawned a vehicle. -/
theorem no_vehicle_noops_witness :
    manual_control ⟨"localhost", 2000, 10, true, some "Town01", none, []⟩
        (1/2) (-2) 7 =
      (⟨"localhost", 2000, 10, true, some "Town01", none, []⟩, []) ∧
    enable_autopilot ⟨"localhost", 2000, 10, true, some "Town01", none, []⟩
        true =
      (⟨"localhost", 2000, 10, true, some "Town01", none, []⟩, []) :=
  no_vehicle_noops ⟨"localhost", 2000, 10, true, some "Town01", none, []⟩
    (1/2) (-2) 7 true rfl

/-- Claim C10: running `cleanup` twice in a row destroys nothing the
second time and leaves the state of the first run unchanged, and every
destroy command `cleanup` issues targets a tracked actor whose `is_alive`
flag is set. -/
theorem cleanup_idempotent_and_alive_only (c : CarlaClient) :
    cleanup (cleanup c).1 = ((cleanup c).1, []) ∧
    (∀ e ∈ (cleanup c).2,
      (∃ n a, e = SimCommand.destroySensor n a.id ∧ (n, a) ∈ c.sensors ∧
        a.is_alive = true) ∨
      (∃ v, e = SimCommand.destroyVehicle v.id ∧ c.vehicle = some v ∧
        v.is_alive = true)) := by
  constructor
  · rfl
  · intro e he
    rw [show (cleanup c).2 =
        ((c.sensors.filter (fun p => p.2.is_alive)).map
          (fun p => SimCommand.destroySensor p.1 p.2.id)) ++
        (match c.vehicle with
         | some v => if v.is_alive then [SimCommand.destroyVehicle v.id]
            else []
         | none => []) from rfl, List.mem_append] at he
    rcases he with hs | hv
    · rw [List.mem_map] at hs
      obtain ⟨q, hq, rfl⟩ := hs
      rw [List.mem_filter] at hq
      exact Or.inl ⟨q.1, q.2, rfl, by simpa using hq.1, hq.2⟩
    · cases hveh : c.vehicle with
      | none => rw [hveh] at hv; simp at hv
      | some v =>
          rw [hveh] at hv
          cases hva : v.is_alive with
          | false => simp [hva] at hv
          | true =>
              simp [hva] at hv
              exact Or.inr ⟨v, hv, rfl, hva⟩

/-- Success or failure of each external call group `main` performs, as
decided by the external simulator. -/
structure ExtOutcomes where
  connectOk : Bool
  loadWorldOk : Bool
  setWeatherOk : Bool
  spawnOk : Bool
  sensorsOk : Bool
  autopilotOk : Bool
deriving DecidableEq

/-- How the setup sequence of `main` ends. -/
inductive SetupResult
  /-- Every step succeeded; the run loop is entered. -/
  | completed
  /-- A step wrapped in try/except caught its failure, logged an error
  naming the operation and returned False, and `main` returned early. -/
  | abortedLogged (step : String)
  /-- A step with no try/except raised; the exception escapes `main`
  uncaught (the run-loop handler is not yet installed during setup). -/
  | crashed (step : String)
deriving DecidableEq

/-- The setup sequence of `main`: `connect`, `load_world`,
`spawn_vehicle` and `setup_sensors` each wrap their simulator calls in
try/except, log the error and return False, which `main` converts into a
logged early return; `set_weather` and `enable_autopilot` contain no
try/except, so an underlying simulator failure inside them propagates out
of `main` uncaught. -/
def main_setup (env : ExtOutcomes) : SetupResult :=
  if env.connectOk = false then SetupResult.abortedLogged "connect"
  else if env.loadWorldOk = false then SetupResult.abortedLogged "load_world"
  else if env.setWeatherOk = false then SetupResult.crashed "set_weather"
  else if env.spawnOk = false then SetupResult.abortedLogged "spawn_vehicle"
  else if env.sensorsOk = false then SetupResult.abortedLogged "setup_sensors"
  else if env.autopilotOk = false then SetupResult.crashed "enable_autopilot"
  else SetupResult.completed

/-- Counterexample to C6 as stated: when the underlying `set_weather`
simulator call fails, the failure is not caught and logged by any failure
boundary; the exception escapes `main`. -/
theorem main_setup_set_weather_uncaught :
    main_setup ⟨true, true, false, true, true, true⟩ =
      SetupResult.crashed "set_weather" ∧
    SetupResult.crashed "set_weather" ≠
      SetupResult.abortedLogged "set_weather" := by
  decide

/-- Claim C6 (amended): only `connect`, `load_world`, `spawn_vehicle` and
`setup_sensors` are wrapped in failure boundaries that log and abort the
setup; a failure inside `set_weather` or `enable_autopilot` instead
propagates uncaught.  In every case the sequence stops at the first
failing step without retry, and it completes exactly when all six steps
succeed. -/
theorem main_setup_failure_boundaries (env : ExtOutcomes) :
    (main_setup env = SetupResult.completed ∨
      main_setup env = SetupResult.abortedLogged "connect" ∨
      main_setup env = SetupResult.abortedLogged "load_world" ∨
      main_setup env = SetupResult.abortedLogged "spawn_vehicle" ∨
      main_setup env = SetupResult.abortedLogged "setup_sensors" ∨
      main_setup env = SetupResult.crashed "set_weather" ∨
      main_setup env = SetupResult.crashed "enable_autopilot") ∧
    (main_setup env = SetupResult.completed ↔
      env.connectOk = true ∧ env.loadWorldOk = true ∧
      env.setWeatherOk = true ∧ env.spawnOk = true ∧
      env.sensorsOk = true ∧ env.autopilotOk = true) := by
  obtain ⟨a, b, c, d, e, f⟩ := env
  cases a <;> cases b <;> cases c <;> cases d <;> cases e <;> cases f <;>
    decide

/-- Witness for the amended C6: with every external call succeeding the
setup sequence completes. -/
theorem main_setup_failure_boundaries_witness :
    main_setup ⟨true, true, true, true, true, true⟩ =
      SetupResult.completed :=
  (main_setup_failure_boundaries ⟨true, true, true, true, true, true⟩).2.mpr
    ⟨rfl, rfl, rfl, rfl, rfl, rfl⟩

/-- `rosbag2_py.StorageOptions` as constructed by the recorder. -/
structure StorageOptions where
  uri : String
  storage_id : String
deriving DecidableEq

/-- `rosbag2_py.TopicMetadata` as constructed by the recorder (the source
attribute named `type` is a Lean keyword and appears here as `msg_type`). -/
structure TopicMetadata where
  id : Nat
  name : String
  msg_type : String
  serialization_format : String
deriving DecidableEq

/-- One `writer.write` call: topic name, serialized payload, timestamp in
nanoseconds from the node clock. -/
structure WriteRecord where
  topic : String
  data : List Nat
  timestamp_ns : Nat
deriving DecidableEq

/-- The state of the `SimpleBagRecorder` node: the writer configuration
fixed in `__init__` and the sequence of records written so far. -/
structure SimpleBagRecorder where
  storage : StorageOptions
  topics : List TopicMetadata
  subscribed_topic : String
  queue_depth : Nat
  records : List WriteRecord
deriving DecidableEq

/-- `SimpleBagRecorder.__init__`: open a sequential writer on uri
`my_bag` with mcap storage, create the single `chatter` topic with CDR
serialization, and subscribe to `chatter` with queue depth 10. -/
def simple_bag_recorder_init : SimpleBagRecorder :=
  ⟨⟨"my_bag", "mcap"⟩, [⟨0, "chatter", "std_msgs/msg/String", "cdr"⟩],
    "chatter", 10, []⟩

/-- `SimpleBagRecorder.topic_callback`: append one write of the serialized
message under the `chatter` topic, stamped with the node clock.
Serialization and the clock belong to the external bus runtime and enter
as parameters. -/
def topic_callback (serialize_message : String → List Nat)
    (clock_now_ns : Nat) (st : SimpleBagRecorder) (msg : String) :
    SimpleBagRecorder :=
  ⟨st.storage, st.topics, st.subscribed_topic, st.queue_depth,
    st.records ++ [⟨"chatter", serialize_message msg, clock_now_ns⟩]⟩

/-- Claim C8: each received message causes exactly one write, appended to
the log opened at the fixed uri `my_bag`, carrying the serialized message,
the subscribed topic name `chatter` and the node-clock timestamp; the
writer configuration is untouched. -/
theorem topic_callback_writes_once (serialize_message : String → List Nat)
    (clock_now_ns : Nat) (st : SimpleBagRecorder) (msg : String) :
    (topic_callback serialize_message clock_now_ns st msg).records =
      st.records ++
        [⟨simple_bag_recorder_init.subscribed_topic, serialize_message msg,
          clock_now_ns⟩] ∧
    (topic_callback serialize_message clock_now_ns st msg).records.length =
      st.records.length + 1 ∧
    simple_bag_recorder_init.storage.uri = "my_bag" ∧
    simple_bag_recorder_init.subscribed_topic = "chatter" ∧
    (topic_callback serialize_message clock_now_ns st msg).storage =
      st.storage ∧
    (topic_callback serialize_message clock_now_ns st msg).topics =
      st.topics := by
  refine ⟨rfl, ?_, rfl, rfl, rfl, rfl⟩
  simp [topic_callback]
